import Mathlib

/-!
Verification of the DummyDB client-side generation workflow
(`src/ui/app/page.tsx`, the `GeneratePage` component).

The TypeScript component is shallowly embedded: each React `useState` cell
becomes a field of `AppState`, each handler becomes a pure function from the
relevant state (plus the data the handler reads from its environment, such as
an HTTP response) to the updated state.  JavaScript `Record<string, number>`
objects are modelled as insertion-ordered association lists with single-entry
keys, written through `setKey` / read through `lookupKey`, matching the
observable semantics of property assignment and lookup on plain JS objects.
-/

namespace DummyDB

/-- `TableAttribute` from `page.tsx` lines 59–64. -/
structure TableAttribute where
  name : String
  type : String
  constraints : List String
  type_params : Option String
deriving DecidableEq

/-- `Table` from `page.tsx` lines 66–69. -/
structure Table where
  name : String
  attributes : List TableAttribute
deriving DecidableEq

/-- `Database` from `page.tsx` lines 71–74. -/
structure Database where
  name : String
  tables : List Table
deriving DecidableEq

/-- `ApiResponse` (the decoded DatabaseStructure) from `page.tsx` lines 76–78. -/
structure ApiResponse where
  databases : List Database
deriving DecidableEq

/-- `EncryptionConfig` from `page.tsx` lines 80–85.  The source field
`attribute` is a reserved word in Lean and is rendered as `attr`. -/
structure EncryptionConfig where
  id : String
  tableName : String
  attr : String
  algorithm : String
deriving DecidableEq

/-- The two steps of the workflow (`currentStep` state, line 100). -/
inductive Step where
  | upload
  | configure
deriving DecidableEq

/-- The `databaseType` enum of the zod form schema (line 37). -/
inductive DbType where
  | sql
  | nosql
  | graph
deriving DecidableEq

/-- A browser `File` as far as the zod refinements read it: declared media
type, file name and byte size. -/
structure FileData where
  name : String
  type : String
  size : Nat
deriving DecidableEq

/-- The raw upload form before validation: the selected database type and the
two (possibly absent) file inputs of `formSchema` (lines 36–55). -/
structure RawForm where
  databaseType : DbType
  sqlFile : Option FileData
  seedDataFile : Option FileData
deriving DecidableEq

/-- The `sqlFile` refinements of `formSchema` (lines 38–45): plain-text media
type or a `.sql` name, and non-empty. -/
def sqlFileValid (f : FileData) : Bool :=
  (f.type = "text/plain" || f.name.endsWith ".sql") && f.size > 0

/-- The `seedDataFile` refinements of `formSchema` (lines 46–54). -/
def seedFileValid (f : FileData) : Bool :=
  (f.type = "text/plain" || f.type = "text/csv" ||
    f.name.endsWith ".sql" || f.name.endsWith ".csv") && f.size > 0

/-- Whether the whole zod schema accepts the raw form.  `sqlFile` is a
non-optional field of the schema, so an absent file is always rejected;
`seedDataFile` is `.optional()`, so absence passes. -/
def formValidates (r : RawForm) : Bool :=
  (match r.sqlFile with
    | some f => sqlFileValid f
    | none => false) &&
  (match r.seedDataFile with
    | some f => seedFileValid f
    | none => true)

/-- Whether a submission reaches the `fetch` of the parse endpoint (line 173):
`form.handleSubmit(onSubmit)` invokes `onSubmit` only when the zod schema
accepts the data, and `onSubmit` returns before the fetch unless
`databaseType === "sql"` (lines 151–153). -/
def parseCallIssued (r : RawForm) : Bool :=
  formValidates r && decide (r.databaseType = DbType.sql)

/-- Insertion-ordered association-list model of a JS count record.  A record
built from the empty object has at most one entry per key. -/
abbrev CountRecord := List (String × Int)

/-- Property assignment `rec[k] = v` on a JS object: overwrite in place when
the key is present, append otherwise. -/
def setKey (r : CountRecord) (k : String) (v : Int) : CountRecord :=
  if r.any (fun p => p.1 = k) then
    r.map (fun p => if p.1 = k then (k, v) else p)
  else
    r ++ [(k, v)]

/-- Property lookup `rec[k]` on a JS object, `none` when absent. -/
def lookupKey (r : CountRecord) (k : String) : Option Int :=
  (r.find? (fun p => p.1 = k)).map Prod.snd

/-- ECMAScript `parseInt` whitespace (restricted to the ASCII whitespace that
can reach this code path). -/
def isWs (c : Char) : Bool :=
  c = ' ' || c = '\t' || c = '\n' || c = '\r'

/-- Hexadecimal digit test for the `0x` branch of `parseInt`. -/
def isHexDigit (c : Char) : Bool :=
  c.isDigit || (decide ('a' ≤ c) && decide (c ≤ 'f')) ||
    (decide ('A' ≤ c) && decide (c ≤ 'F'))

/-- Numeric value of a (hex) digit character. -/
def digitVal (c : Char) : Nat :=
  if c.isDigit then c.toNat - 48
  else if decide ('a' ≤ c) && decide (c ≤ 'f') then c.toNat - 87
  else c.toNat - 55

/-- Value of a digit string in the given base. -/
def natOfDigits (base : Nat) (ds : List Char) : Nat :=
  ds.foldl (fun a c => a * base + digitVal c) 0

/-- ECMAScript `parseInt(s)` with unspecified radix, as called on line 121:
skip leading whitespace, read an optional sign, honour a `0x`/`0X` prefix,
then take the longest digit prefix; no digits means `NaN`, modelled as
`none`. -/
def parseIntJS (s : String) : Option Int :=
  let cs0 := s.data.dropWhile isWs
  let sgn : Int := match cs0 with
    | '-' :: _ => -1
    | _ => 1
  let cs1 : List Char := match cs0 with
    | '-' :: rest => rest
    | '+' :: rest => rest
    | _ => cs0
  let base : Nat := match cs1 with
    | '0' :: 'x' :: _ => 16
    | '0' :: 'X' :: _ => 16
    | _ => 10
  let cs2 : List Char := match cs1 with
    | '0' :: 'x' :: rest => rest
    | '0' :: 'X' :: rest => rest
    | _ => cs1
  let ds := cs2.takeWhile (fun c => if base = 16 then isHexDigit c else c.isDigit)
  if ds.isEmpty then none else some (sgn * (natOfDigits base ds : Nat))

/-- The JavaScript expression `x || 0` on a number that may be `NaN`
(modelled as `none`): `NaN` and `0` are falsy, everything else is kept. -/
def jsOrZero (x : Option Int) : Int :=
  match x with
  | none => 0
  | some n => if n = 0 then 0 else n

/-- `handleTableEntryCountChange` (lines 120–126): `parseInt(count) || 0`
stored under the table name. -/
def handleTableEntryCountChange (counts : CountRecord) (tableName count : String) :
    CountRecord :=
  setKey counts tableName (jsOrZero (parseIntJS count))

/-- The field selector `keyof EncryptionConfig` of `handleEncryptionChange`
(line 128). -/
inductive ConfigField where
  | id
  | tableName
  | attr
  | algorithm
deriving DecidableEq

/-- The computed-property spread `{ ...config, [field]: value }` (line 131). -/
def setField (c : EncryptionConfig) (f : ConfigField) (v : String) : EncryptionConfig :=
  match f with
  | ConfigField.id => { c with id := v }
  | ConfigField.tableName => { c with tableName := v }
  | ConfigField.attr => { c with attr := v }
  | ConfigField.algorithm => { c with algorithm := v }

/-- Reading one field of a rule, used to state frame properties. -/
def projField (f : ConfigField) (c : EncryptionConfig) : String :=
  match f with
  | ConfigField.id => c.id
  | ConfigField.tableName => c.tableName
  | ConfigField.attr => c.attr
  | ConfigField.algorithm => c.algorithm

/-- `handleEncryptionChange` (lines 128–134): map over the list, rewriting
the chosen field of every config whose id matches. -/
def handleEncryptionChange (cs : List EncryptionConfig) (idv : String)
    (f : ConfigField) (v : String) : List EncryptionConfig :=
  cs.map (fun c => if c.id = idv then setField c f v else c)

/-- `addEncryptionRow` (lines 136–142): the new id is the decimal string of
the current length plus one, and the new rule has empty selections. -/
def addEncryptionRow (cs : List EncryptionConfig) : List EncryptionConfig :=
  cs ++ [{ id := toString (cs.length + 1), tableName := "", attr := "", algorithm := "" }]

/-- `removeEncryptionRow` (lines 144–148): guarded by `length > 1`, then
filters out every config whose id equals the argument.  (The guard reads the
rendered state and the filter the updater's `prev`; in the sequential model
they are the same list.) -/
def removeEncryptionRow (cs : List EncryptionConfig) (idv : String) :
    List EncryptionConfig :=
  if cs.length > 1 then cs.filter (fun c => c.id ≠ idv) else cs

/-- The seed rule of the initial state and of every reset (lines 107–109,
248, 262). -/
def defaultEncryptionConfig : EncryptionConfig :=
  { id := "1", tableName := "", attr := "", algorithm := "" }

/-- Initial `encryptionConfigs` state (lines 107–109). -/
def initialEncryptionConfigs : List EncryptionConfig := [defaultEncryptionConfig]

/-- The `useState` cells of `GeneratePage` that the workflow logic touches
(the transient `isUploading` spinner flag is set and cleared inside each
handler and always ends where it started, so it is omitted). -/
structure AppState where
  currentStep : Step
  databaseStructure : Option ApiResponse
  tableEntryCounts : CountRecord
  enableEncryption : Bool
  encryptionConfigs : List EncryptionConfig
  uploadSuccess : Bool
  uploadError : Option String
deriving DecidableEq

/-- The initial component state (lines 100–109). -/
def initialState : AppState :=
  { currentStep := Step.upload
    databaseStructure := none
    tableEntryCounts := []
    enableEncryption := false
    encryptionConfigs := initialEncryptionConfigs
    uploadSuccess := false
    uploadError := none }

/-- The default-count loop of `onSubmit` (lines 194–199): for every database,
for every table, `defaultCounts[table.name] = 10`, starting from `{}`. -/
def buildDefaultCounts (st : ApiResponse) : CountRecord :=
  st.databases.foldl
    (fun acc db => db.tables.foldl (fun acc2 t => setKey acc2 t.name 10) acc) []

/-- `getTableNames` (lines 269–278): push every table name across every
database, in structure order. -/
def getTableNames (st : ApiResponse) : List String :=
  st.databases.foldl
    (fun acc db => db.tables.foldl (fun acc2 t => acc2 ++ [t.name]) acc) []

/-- `getTableAttributes` (lines 281–291): attribute names of the first table
matching the given name, scanning databases then tables in order. -/
def getTableAttributes (st : ApiResponse) (tableName : String) : List String :=
  match st.databases.findSome?
      (fun db => db.tables.find? (fun t => t.name = tableName)) with
  | some t => t.attributes.map TableAttribute.name
  | none => []

/-- The parse response as `onSubmit` consumes it: the `ok` flag and
`statusText` of the HTTP response, and the body's `data` field — `none` when
the field is absent, otherwise its string value paired with the outcome of
`JSON.parse` on that string followed by the `databases`/`tables` walk of
lines 190–199.  `JSON.parse` is a platform builtin, so it is modelled by its
outcome: `Except.error m` when parsing or the structure walk throws (with the
thrown message `m`), `Except.ok v` when it yields a well-shaped structure. -/
structure ParseResponse where
  ok : Bool
  statusText : String
  body : Option (String × Except String ApiResponse)

/-- The state update performed by `onSubmit` (lines 155–211) once the fetch
has resolved.  Lines 156–158 clear the error/success flags and the structure;
a non-ok response throws into the catch (line 182); a falsy `data` field
(absent or empty string) skips the decode block entirely and still reports
success (line 206); a throwing decode lands in the catch with the thrown
message; a successful decode installs the structure, the default counts, the
configure step, and then success.  (When the structure walk throws after
`JSON.parse` succeeded, the already-queued `setDatabaseStructure` of line 191
leaves a residual structure value; that residue is folded into the failing
decode outcome here since no flag, count or step the properties below concern
depends on it.) -/
def onSubmitUpdate (s : AppState) (resp : ParseResponse) : AppState :=
  let s0 : AppState :=
    { s with uploadError := none, uploadSuccess := false, databaseStructure := none }
  if resp.ok then
    match resp.body with
    | none => { s0 with uploadSuccess := true }
    | some (str, dec) =>
      if str = "" then { s0 with uploadSuccess := true }
      else
        match dec with
        | Except.error m => { s0 with uploadError := some m }
        | Except.ok v =>
          { s0 with
            databaseStructure := some v
            tableEntryCounts := buildDefaultCounts v
            currentStep := Step.configure
            uploadSuccess := true }
  else
    { s0 with uploadError := some ("Upload failed: " ++ resp.statusText) }

/-- `handleGenerateData` (lines 214–255): no-op without a structure; on a
non-ok response only `uploadError` changes (it was cleared on line 218 and
set in the catch on line 251); on success the workflow resets to the upload
step with empty registries and the success banner. -/
def handleGenerateData (s : AppState) (ok : Bool) (statusText : String) : AppState :=
  match s.databaseStructure with
  | none => s
  | some _ =>
    if ok then
      { s with
        uploadSuccess := true
        currentStep := Step.upload
        databaseStructure := none
        tableEntryCounts := []
        enableEncryption := false
        encryptionConfigs := [defaultEncryptionConfig]
        uploadError := none }
    else
      { s with uploadError := some ("Data generation failed: " ++ statusText) }

/-- `resetToUpload` (lines 257–266). -/
def resetToUpload (s : AppState) : AppState :=
  { s with
    currentStep := Step.upload
    databaseStructure := none
    tableEntryCounts := []
    enableEncryption := false
    encryptionConfigs := [defaultEncryptionConfig]
    uploadSuccess := false
    uploadError := none }

/-! ### Association-list record lemmas -/

theorem lookupKey_cons_pos (p : String × Int) (r : CountRecord) (k : String)
    (h : p.1 = k) : lookupKey (p :: r) k = some p.2 := by
  unfold lookupKey
  rw [List.find?_cons_of_pos _ (by simp [h])]
  rfl

theorem lookupKey_cons_neg (p : String × Int) (r : CountRecord) (k : String)
    (h : ¬p.1 = k) : lookupKey (p :: r) k = lookupKey r k := by
  unfold lookupKey
  rw [List.find?_cons_of_neg _ (by simp [h])]

theorem any_false_key (r : CountRecord) (k : String)
    (h : r.any (fun p => p.1 = k) = false) : ∀ p ∈ r, p.1 ≠ k := by
  intro p hp
  have h' := List.any_eq_false.mp h p hp
  simpa using h'

theorem lookup_map_set (r : CountRecord) (k k' : String) (v : Int) :
    lookupKey (r.map (fun p => if p.1 = k then (k, v) else p)) k' =
      if k' = k then (if r.any (fun p => p.1 = k) then some v else none)
      else lookupKey r k' := by
  induction r with
  | nil => by_cases h : k' = k <;> simp [lookupKey, h]
  | cons p rest ih =>
    simp only [List.map_cons]
    by_cases hp : p.1 = k
    · rw [if_pos hp]
      by_cases hk : k' = k
      · subst hk
        rw [lookupKey_cons_pos (k', v) _ k' rfl]
        have hany : (p :: rest).any (fun q => q.1 = k') = true := by
          simp [List.any_cons, hp]
        simp [hany]
      · have hp' : ¬p.1 = k' := fun hh => hk (hh ▸ hp)
        have hkv : ¬((k, v) : String × Int).1 = k' := fun hh => hk hh.symm
        rw [lookupKey_cons_neg (k, v) _ k' hkv, ih, if_neg hk, if_neg hk,
          lookupKey_cons_neg p rest k' hp']
    · rw [if_neg hp]
      by_cases hpk : p.1 = k'
      · have hk : ¬k' = k := fun hh => hp (hpk.trans hh)
        rw [lookupKey_cons_pos p _ k' hpk, if_neg hk, lookupKey_cons_pos p rest k' hpk]
      · rw [lookupKey_cons_neg p _ k' hpk, ih]
        by_cases hk : k' = k
        · subst hk
          have hstep : (p :: rest).any (fun q => q.1 = k') = rest.any (fun q => q.1 = k') := by
            simp [List.any_cons, hp]
          rw [if_pos rfl, if_pos rfl, hstep]
        · rw [if_neg hk, if_neg hk, lookupKey_cons_neg p rest k' hpk]

theorem lookup_append_single (r : CountRecord) (k k' : String) (v : Int)
    (h : r.any (fun p => p.1 = k) = false) :
    lookupKey (r ++ [(k, v)]) k' = if k' = k then some v else lookupKey r k' := by
  unfold lookupKey
  rw [List.find?_append]
  by_cases hk : k' = k
  · subst hk
    have hnone : r.find? (fun p => decide (p.1 = k')) = none := by
      rw [List.find?_eq_none]
      intro p hp
      simpa using any_false_key r k' h p hp
    simp [hnone]
  · have hne : ¬k = k' := fun hh => hk hh.symm
    have hone : List.find? (fun p => decide (p.1 = k')) [(k, v)] = none := by
      simp [hne]
    simp [hone, hk]

theorem lookupKey_setKey (r : CountRecord) (k k' : String) (v : Int) :
    lookupKey (setKey r k v) k' = if k' = k then some v else lookupKey r k' := by
  unfold setKey
  cases hany : r.any (fun p => p.1 = k) with
  | true =>
    rw [if_pos rfl, lookup_map_set, hany]
    by_cases hk : k' = k <;> simp [hk]
  | false =>
    rw [if_neg (by simp), lookup_append_single r k k' v hany]

theorem lookupKey_setKey_self (r : CountRecord) (k : String) (v : Int) :
    lookupKey (setKey r k v) k = some v := by
  simp [lookupKey_setKey]

theorem lookupKey_setKey_other (r : CountRecord) (k k' : String) (v : Int)
    (h : k' ≠ k) : lookupKey (setKey r k v) k' = lookupKey r k' := by
  simp [lookupKey_setKey, h]

theorem keys_setKey (r : CountRecord) (k : String) (v : Int) :
    (setKey r k v).map Prod.fst =
      if r.any (fun p => p.1 = k) then r.map Prod.fst
      else r.map Prod.fst ++ [k] := by
  unfold setKey
  cases hany : r.any (fun p => p.1 = k) with
  | true =>
    rw [if_pos rfl, if_pos rfl, List.map_map]
    apply List.map_congr_left
    intro p _
    by_cases hp : p.1 = k <;> simp [hp]
  | false =>
    rw [if_neg (by simp), if_neg (by simp)]
    simp

theorem nodupKeys_setKey (r : CountRecord) (k : String) (v : Int)
    (h : (r.map Prod.fst).Nodup) : ((setKey r k v).map Prod.fst).Nodup := by
  rw [keys_setKey]
  cases hany : r.any (fun p => p.1 = k) with
  | true => simpa using h
  | false =>
    have hk : k ∉ r.map Prod.fst := by
      intro hmem
      rcases List.mem_map.mp hmem with ⟨p, hp, hfst⟩
      exact any_false_key r k hany p hp hfst
    simp [List.nodup_append, hk, h]

/-! ### Default-count fold characterizations -/

theorem lookup_foldTables (ts : List Table) (r : CountRecord) (n : String) :
    lookupKey (ts.foldl (fun a t => setKey a t.name 10) r) n =
      if n ∈ ts.map Table.name then some 10 else lookupKey r n := by
  induction ts generalizing r with
  | nil => simp
  | cons t rest ih =>
    rw [List.foldl_cons, ih]
    by_cases hn : n ∈ rest.map Table.name
    · simp [hn]
    · by_cases ht : n = t.name
      · simp [hn, ht, lookupKey_setKey]
      · simp [hn, ht, lookupKey_setKey]

theorem lookup_foldDbs (dbs : List Database) (r : CountRecord) (n : String) :
    lookupKey
        (dbs.foldl
          (fun acc db => db.tables.foldl (fun a t => setKey a t.name 10) acc) r) n =
      if n ∈ (dbs.map (fun db => db.tables.map Table.name)).flatten then some 10
      else lookupKey r n := by
  induction dbs generalizing r with
  | nil => simp
  | cons db rest ih =>
    rw [List.foldl_cons, ih, lookup_foldTables]
    by_cases h1 : n ∈ (rest.map (fun db => db.tables.map Table.name)).flatten
    · simp [h1]
    · by_cases h2 : n ∈ db.tables.map Table.name <;> simp [h1, h2]

theorem nodupKeys_foldTables (ts : List Table) (r : CountRecord)
    (h : (r.map Prod.fst).Nodup) :
    ((ts.foldl (fun a t => setKey a t.name 10) r).map Prod.fst).Nodup := by
  induction ts generalizing r with
  | nil => simpa
  | cons t rest ih => exact ih _ (nodupKeys_setKey r t.name 10 h)

theorem nodupKeys_foldDbs (dbs : List Database) (r : CountRecord)
    (h : (r.map Prod.fst).Nodup) :
    ((dbs.foldl
        (fun acc db => db.tables.foldl (fun a t => setKey a t.name 10) acc) r).map
      Prod.fst).Nodup := by
  induction dbs generalizing r with
  | nil => simpa
  | cons db rest ih => exact ih _ (nodupKeys_foldTables db.tables r h)

theorem foldNames_tables (ts : List Table) (acc : List String) :
    ts.foldl (fun a t => a ++ [t.name]) acc = acc ++ ts.map Table.name := by
  induction ts generalizing acc with
  | nil => simp
  | cons t rest ih => rw [List.foldl_cons, ih]; simp

theorem getTableNames_eq (st : ApiResponse) :
    getTableNames st =
      (st.databases.map (fun db => db.tables.map Table.name)).flatten := by
  unfold getTableNames
  suffices h : ∀ (dbs : List Database) (acc : List String),
      dbs.foldl (fun a db => db.tables.foldl (fun a2 t => a2 ++ [t.name]) a) acc =
        acc ++ (dbs.map (fun db => db.tables.map Table.name)).flatten by
    simpa using h st.databases []
  intro dbs
  induction dbs with
  | nil => simp
  | cons db rest ih =>
    intro acc
    rw [List.foldl_cons, foldNames_tables, ih]
    simp

theorem lookup_buildDefaultCounts (st : ApiResponse) (n : String) :
    lookupKey (buildDefaultCounts st) n =
      if n ∈ getTableNames st then some 10 else none := by
  unfold buildDefaultCounts
  rw [lookup_foldDbs, getTableNames_eq]
  by_cases h : n ∈ (st.databases.map (fun db => db.tables.map Table.name)).flatten <;>
    simp [h, lookupKey]

theorem nodupKeys_buildDefaultCounts (st : ApiResponse) :
    ((buildDefaultCounts st).map Prod.fst).Nodup := by
  unfold buildDefaultCounts
  exact nodupKeys_foldDbs st.databases [] (by simp)

/-! ### Field update lemmas -/

theorem projField_setField_self (c : EncryptionConfig) (f : ConfigField) (v : String) :
    projField f (setField c f v) = v := by
  cases f <;> rfl

theorem projField_setField_other (c : EncryptionConfig) (f g : ConfigField) (v : String)
    (h : g ≠ f) : projField g (setField c f v) = projField g c := by
  cases f <;> cases g <;> first | rfl | exact absurd rfl h

/-! ### Claim theorems -/

/-- C1 counterexample: `setEntryCount("users", "-5")` stores `-5`, not the `0`
the claim requires — `parseInt(count) || 0` only coerces `NaN` (and `0`),
never negative numbers. -/
theorem c1_counterexample :
    lookupKey (handleTableEntryCountChange [] "users" "-5") "users" = some (-5) ∧
      lookupKey (handleTableEntryCountChange [] "users" "-5") "users" ≠ some 0 := by
  decide

/-- C1 (amended): `setEntryCount` parses the raw value with `parseInt` and
stores the result under the table name, with non-numeric input (`NaN`)
coerced to `0`; a successfully parsed non-zero integer — negative ones
included — is stored as parsed, and entries of other tables are untouched.
The operation is total (never throws). -/
theorem c1_amended (counts : CountRecord) (t s : String) :
    (parseIntJS s = none →
      lookupKey (handleTableEntryCountChange counts t s) t = some 0) ∧
    (∀ n : Int, parseIntJS s = some n → n ≠ 0 →
      lookupKey (handleTableEntryCountChange counts t s) t = some n) ∧
    (∀ t', t' ≠ t →
      lookupKey (handleTableEntryCountChange counts t s) t' = lookupKey counts t') := by
  unfold handleTableEntryCountChange
  refine ⟨?_, ?_, ?_⟩
  · intro h
    rw [h, lookupKey_setKey_self]
    simp [jsOrZero]
  · intro n h hn
    rw [h, lookupKey_setKey_self]
    simp [jsOrZero, hn]
  · intro t' ht
    exact lookupKey_setKey_other counts t t' _ ht

/-- C1 witness: the amended theorem evaluated at the empty registry,
table `"users"` and raw value `"-5"`. -/
theorem c1_amended_witness :
    parseIntJS "-5" = some (-5) ∧
      lookupKey (handleTableEntryCountChange [] "users" "-5") "users" = some (-5) :=
  ⟨by decide, (c1_amended [] "users" "-5").2.1 (-5) (by decide) (by decide)⟩

/-- C2 counterexample: an ok parse response whose body has no `data` field
reports success (`uploadSuccess = true`) with no error recorded and no
transition — it does not fail as a malformed response. -/
theorem c2_counterexample :
    (onSubmitUpdate initialState ⟨true, "OK", none⟩).uploadSuccess = true ∧
    (onSubmitUpdate initialState ⟨true, "OK", none⟩).uploadError = none ∧
    (onSubmitUpdate initialState ⟨true, "OK", none⟩).currentStep = Step.upload :=
  ⟨rfl, rfl, rfl⟩

/-- C2 (amended): for an ok parse response — a present, non-empty `data`
string that fails to decode records the thrown message as the error, does
not report success and does not transition; a present, non-empty `data`
string that decodes to a `DatabaseStructure` installs it, transitions to the
configure step and reports success; but an absent `data` field reports
success with no error recorded, no structure and no transition. -/
theorem c2_amended (s : AppState) (resp : ParseResponse) (hok : resp.ok = true) :
    (resp.body = none →
      (onSubmitUpdate s resp).uploadSuccess = true ∧
      (onSubmitUpdate s resp).uploadError = none ∧
      (onSubmitUpdate s resp).currentStep = s.currentStep ∧
      (onSubmitUpdate s resp).databaseStructure = none) ∧
    (∀ str m, resp.body = some (str, Except.error m) → str ≠ "" →
      (onSubmitUpdate s resp).uploadError = some m ∧
      (onSubmitUpdate s resp).uploadSuccess = false ∧
      (onSubmitUpdate s resp).currentStep = s.currentStep) ∧
    (∀ str v, resp.body = some (str, Except.ok v) → str ≠ "" →
      (onSubmitUpdate s resp).currentStep = Step.configure ∧
      (onSubmitUpdate s resp).databaseStructure = some v ∧
      (onSubmitUpdate s resp).uploadSuccess = true ∧
      (onSubmitUpdate s resp).uploadError = none) := by
  refine ⟨?_, ?_, ?_⟩
  · intro hbody
    simp [onSubmitUpdate, hok, hbody]
  · intro str m hbody hstr
    simp [onSubmitUpdate, hok, hbody, hstr]
  · intro str v hbody hstr
    simp [onSubmitUpdate, hok, hbody, hstr]

/-- A malformed parse response: the `data` field is present and non-empty but
`JSON.parse` throws. -/
def malformedResponse : ParseResponse :=
  ⟨true, "OK", some ("not json", Except.error "Unexpected token")⟩

/-- C2 witness: the amended theorem evaluated on `malformedResponse` from the
initial state. -/
theorem c2_amended_witness :
    (onSubmitUpdate initialState malformedResponse).uploadError =
        some "Unexpected token" ∧
      (onSubmitUpdate initialState malformedResponse).uploadSuccess = false := by
  have h := c2_amended initialState malformedResponse rfl
  have h2 := h.2.1 "not json" "Unexpected token" rfl (by decide)
  exact ⟨h2.1, h2.2.1⟩

/-- C3 counterexample: starting from the seeded list, the session
`add, add, remove "2", add` produces rule ids `["1", "3", "3"]` — a duplicate
id — and `add, remove "2", add` reassigns the removed id `"2"` to the new
rule. -/
theorem c3_counterexample :
    ¬(List.map EncryptionConfig.id
        (addEncryptionRow
          (removeEncryptionRow (addEncryptionRow (addEncryptionRow initialEncryptionConfigs))
            "2"))).Nodup ∧
    List.map EncryptionConfig.id
        (addEncryptionRow (removeEncryptionRow (addEncryptionRow initialEncryptionConfigs) "2")) =
      ["1", "2"] := by
  decide

/-- C3 (amended): `addEncryptionRule` appends one rule with empty selections
whose id is the decimal string of the previous length plus one; that id is
not guaranteed fresh — the resulting list has pairwise distinct ids exactly
when the previous list did and the generated string did not already occur as
an id, so ids can collide and removed ids can be reassigned. -/
theorem c3_amended (cs : List EncryptionConfig) :
    (List.map EncryptionConfig.id (addEncryptionRow cs)).Nodup ↔
      (List.map EncryptionConfig.id cs).Nodup ∧
        toString (cs.length + 1) ∉ List.map EncryptionConfig.id cs := by
  unfold addEncryptionRow
  simp [List.nodup_append]

/-- A reachable rule list whose ids are `["1", "3"]` (obtained from the seed
by `add, add, remove "2"`); the next generated id collides with the existing
`"3"`. -/
def collidingRules : List EncryptionConfig :=
  [{ id := "1", tableName := "", attr := "", algorithm := "" },
   { id := "3", tableName := "", attr := "", algorithm := "" }]

/-- C4 counterexample: on `collidingRules` the add generates id `"3"`, and the
subsequent remove with that id filters out the pre-existing `"3"` rule as
well, so the list does not return to its prior content. -/
theorem c4_counterexample :
    removeEncryptionRow (addEncryptionRow collidingRules)
        (toString (collidingRules.length + 1)) ≠ collidingRules := by
  decide

/-- C4 (amended): when the list is non-empty and the generated id (the string
of length + 1) does not already occur among the ids, `addEncryptionRule`
followed by `removeEncryptionRule` with that id restores the list exactly;
with a colliding id the removal also deletes the pre-existing rules bearing
it. -/
theorem c4_roundtrip (cs : List EncryptionConfig) (hne : cs ≠ [])
    (hfresh : toString (cs.length + 1) ∉ cs.map EncryptionConfig.id) :
    removeEncryptionRow (addEncryptionRow cs) (toString (cs.length + 1)) = cs := by
  unfold addEncryptionRow removeEncryptionRow
  have hlen : 0 < cs.length := List.length_pos.mpr hne
  rw [if_pos (by simp; omega)]
  rw [List.filter_append]
  have h1 :
      List.filter (fun c : EncryptionConfig => c.id ≠ toString (cs.length + 1))
        [{ id := toString (cs.length + 1), tableName := "", attr := "",
           algorithm := "" }] = [] := by
    simp
  have h2 :
      List.filter (fun c : EncryptionConfig => c.id ≠ toString (cs.length + 1)) cs = cs := by
    rw [List.filter_eq_self]
    intro c hc
    simp only [ne_eq, decide_not, Bool.not_eq_eq_eq_not, Bool.not_true,
      decide_eq_false_iff_not]
    exact fun hh => hfresh (hh ▸ List.mem_map_of_mem EncryptionConfig.id hc)
  rw [h1, h2, List.append_nil]

/-- C4 witness: the round trip evaluated on the seeded single-rule list,
whose generated id `"2"` is fresh. -/
theorem c4_roundtrip_witness :
    removeEncryptionRow (addEncryptionRow initialEncryptionConfigs)
        (toString (initialEncryptionConfigs.length + 1)) = initialEncryptionConfigs :=
  c4_roundtrip initialEncryptionConfigs (by decide) (by decide)

/-- C5: in a Configure state (a structure is present), a failed generate call
leaves the step, the structure, every entry count, the encryption flag and
every encryption rule unchanged and records
`"Data generation failed: <statusText>"`; a successful call performs the full
reset to the upload step with empty registries and the single seed rule. -/
theorem c5_generate_outcome (s : AppState) (st : ApiResponse) (txt : String)
    (h1 : s.currentStep = Step.configure) (h2 : s.databaseStructure = some st) :
    ((handleGenerateData s false txt).currentStep = Step.configure ∧
      (handleGenerateData s false txt).databaseStructure = s.databaseStructure ∧
      (handleGenerateData s false txt).tableEntryCounts = s.tableEntryCounts ∧
      (handleGenerateData s false txt).enableEncryption = s.enableEncryption ∧
      (handleGenerateData s false txt).encryptionConfigs = s.encryptionConfigs ∧
      (handleGenerateData s false txt).uploadError =
        some ("Data generation failed: " ++ txt)) ∧
    ((handleGenerateData s true txt).currentStep = Step.upload ∧
      (handleGenerateData s true txt).databaseStructure = none ∧
      (handleGenerateData s true txt).tableEntryCounts = [] ∧
      (handleGenerateData s true txt).enableEncryption = false ∧
      (handleGenerateData s true txt).encryptionConfigs = [defaultEncryptionConfig] ∧
      (handleGenerateData s true txt).uploadError = none) := by
  constructor
  · simp [handleGenerateData, h2, h1]
  · simp [handleGenerateData, h2]

/-- A concrete Configure state with prior edits, used to instantiate C5. -/
def configuredState : AppState :=
  { currentStep := Step.configure
    databaseStructure := some ⟨[]⟩
    tableEntryCounts := [("users", 5)]
    enableEncryption := true
    encryptionConfigs := [defaultEncryptionConfig]
    uploadSuccess := false
    uploadError := none }

/-- C5 witness: the failure half of the theorem evaluated on
`configuredState` with an HTTP 500 status text. -/
theorem c5_generate_outcome_witness :
    (handleGenerateData configuredState false "Internal Server Error").currentStep =
        Step.configure ∧
      (handleGenerateData configuredState false "Internal Server Error").tableEntryCounts =
        configuredState.tableEntryCounts ∧
      (handleGenerateData configuredState false "Internal Server Error").uploadError =
        some ("Data generation failed: " ++ "Internal Server Error") := by
  have h := c5_generate_outcome configuredState ⟨[]⟩ "Internal Server Error" rfl rfl
  exact ⟨h.1.1, h.1.2.2.1, h.1.2.2.2.2.2⟩

/-- C6: after an ok parse response whose non-empty `data` payload decodes to
the structure `v`, the workflow is in the configure step and the entry count
registry is exactly the fresh defaults of `v`: its keys are pairwise
distinct, every table name of `v` looks up to `10`, and every other name —
any key of a prior structure included — looks up to nothing. -/
theorem c6_registry_defaults (s : AppState) (resp : ParseResponse) (str : String)
    (v : ApiResponse) (hok : resp.ok = true)
    (hbody : resp.body = some (str, Except.ok v)) (hstr : str ≠ "") :
    (onSubmitUpdate s resp).tableEntryCounts = buildDefaultCounts v ∧
    (∀ n, lookupKey (onSubmitUpdate s resp).tableEntryCounts n =
        if n ∈ getTableNames v then some 10 else none) ∧
    ((onSubmitUpdate s resp).tableEntryCounts.map Prod.fst).Nodup ∧
    (onSubmitUpdate s resp).currentStep = Step.configure := by
  have hres : (onSubmitUpdate s resp).tableEntryCounts = buildDefaultCounts v ∧
      (onSubmitUpdate s resp).currentStep = Step.configure := by
    constructor <;> simp [onSubmitUpdate, hok, hbody, hstr]
  refine ⟨hres.1, ?_, ?_, hres.2⟩
  · intro n
    rw [hres.1]
    exact lookup_buildDefaultCounts v n
  · rw [hres.1]
    exact nodupKeys_buildDefaultCounts v

/-- The spec's §8 scenario structure: one database `shop` with one table
`users` having one attribute `id`. -/
def scenarioStructure : ApiResponse :=
  ⟨[⟨"shop", [⟨"users", [⟨"id", "integer", ["primary_key"], none⟩]⟩]⟩]⟩

/-- An ok parse response whose payload decodes to `scenarioStructure`. -/
def scenarioResponse : ParseResponse :=
  ⟨true, "OK", some ("payload", Except.ok scenarioStructure)⟩

/-- C6 witness: the theorem evaluated on the §8 scenario — the registry is
the defaults of the decoded structure and `"users"` maps to `10`. -/
theorem c6_registry_defaults_witness :
    (onSubmitUpdate initialState scenarioResponse).tableEntryCounts =
        buildDefaultCounts scenarioStructure ∧
      lookupKey (onSubmitUpdate initialState scenarioResponse).tableEntryCounts "users" =
        some 10 ∧
      (onSubmitUpdate initialState scenarioResponse).currentStep = Step.configure := by
  have h := c6_registry_defaults initialState scenarioResponse "payload"
    scenarioStructure rfl rfl (by decide)
  exact ⟨h.1, (h.2.1 "users").trans (by decide), h.2.2.2⟩

/-- C7: `removeEncryptionRule` on a one-element rule list is a no-op for any
id (the `length > 1` guard fails), in particular while encryption is
enabled. -/
theorem c7_remove_singleton (cs : List EncryptionConfig) (idv : String)
    (h : cs.length = 1) : removeEncryptionRow cs idv = cs := by
  unfold removeEncryptionRow
  rw [h]
  simp

/-- C7 witness: removing the only seeded rule by its own id changes
nothing. -/
theorem c7_remove_singleton_witness :
    removeEncryptionRow initialEncryptionConfigs "1" = initialEncryptionConfigs :=
  c7_remove_singleton initialEncryptionConfigs "1" (by decide)

/-- Two reachable rules sharing the duplicated id `"3"` (ids `["1","3","3"]`
arise from the seed by `add, add, remove "2", add`; dropping the `"1"` rule's
row leaves two rules with id `"3"`). -/
def dupIdRules : List EncryptionConfig :=
  [{ id := "3", tableName := "t1", attr := "a1", algorithm := "AES-256" },
   { id := "3", tableName := "t2", attr := "a2", algorithm := "DES" }]

/-- C8 counterexample: updating the `tableName` of id `"3"` rewrites every
rule with that id — the second rule, which the claim requires untouched,
changes too. -/
theorem c8_counterexample :
    (handleEncryptionChange dupIdRules "3" ConfigField.tableName "users")[1]? =
        some { id := "3", tableName := "users", attr := "a2", algorithm := "DES" } ∧
      (handleEncryptionChange dupIdRules "3" ConfigField.tableName "users")[1]? ≠
        dupIdRules[1]? := by
  decide

/-- C8 (amended): `updateEncryptionRule` preserves the list length; a rule
whose id differs from the argument is unchanged; a rule whose id matches has
the designated field replaced by the value while its other three fields are
unchanged — in particular changing `tableName` does not clear a previously
chosen attribute.  (When the id occurs more than once, every matching rule
is rewritten this way.) -/
theorem c8_update_frame (cs : List EncryptionConfig) (idv : String)
    (f : ConfigField) (v : String) (i : Nat) (c : EncryptionConfig)
    (hc : cs[i]? = some c) :
    (handleEncryptionChange cs idv f v).length = cs.length ∧
    (c.id ≠ idv → (handleEncryptionChange cs idv f v)[i]? = some c) ∧
    (c.id = idv →
      (handleEncryptionChange cs idv f v)[i]? = some (setField c f v) ∧
      projField f (setField c f v) = v ∧
      ∀ g, g ≠ f → projField g (setField c f v) = projField g c) := by
  refine ⟨by simp [handleEncryptionChange], ?_, ?_⟩
  · intro hid
    simp [handleEncryptionChange, List.getElem?_map, hc, hid]
  · intro hid
    refine ⟨?_, projField_setField_self c f v, fun g hg => projField_setField_other c f g v hg⟩
    simp [handleEncryptionChange, List.getElem?_map, hc, hid]

/-- A single rule with a chosen attribute, used to instantiate C8. -/
def c8SampleRule : EncryptionConfig :=
  { id := "1", tableName := "users", attr := "email", algorithm := "AES-256" }

/-- C8 witness: updating the sample rule's `tableName` to `"customers"`
replaces that field and keeps the chosen attribute. -/
theorem c8_update_frame_witness :
    (handleEncryptionChange [c8SampleRule] "1" ConfigField.tableName "customers")[0]? =
        some (setField c8SampleRule ConfigField.tableName "customers") ∧
      projField ConfigField.attr (setField c8SampleRule ConfigField.tableName "customers") =
        projField ConfigField.attr c8SampleRule := by
  have h := c8_update_frame [c8SampleRule] "1" ConfigField.tableName "customers" 0
    c8SampleRule rfl
  have h2 := h.2.2 rfl
  exact ⟨h2.1, h2.2.2 ConfigField.attr (by decide)⟩

/-- C9: a submission with no primary file, or with a non-sql database type,
never reaches the parse fetch: the zod schema rejects an absent `sqlFile`
before `onSubmit` runs, and `onSubmit` returns before the fetch for non-sql
types. -/
theorem c9_no_call_without_file (r : RawForm)
    (h : r.sqlFile = none ∨ r.databaseType ≠ DbType.sql) :
    parseCallIssued r = false := by
  rcases h with h | h
  · unfold parseCallIssued formValidates
    rw [h]
    simp
  · unfold parseCallIssued
    simp [h]

/-- C9 witness: an sql submission with both file inputs empty issues no
parse call. -/
theorem c9_no_call_without_file_witness :
    parseCallIssued { databaseType := DbType.sql, sqlFile := none, seedDataFile := none } =
      false :=
  c9_no_call_without_file _ (Or.inl rfl)

/-- C10: the reachable operation sequence `add, add, remove "2", add,
remove "1", remove "3"` from the seeded list empties the encryption rule
list entirely — at the last step the `length > 1` guard passes (two rules
remain) but both remaining rules carry the duplicated id `"3"`, so the
filter deletes them both, violating the intended at-least-one-rule
invariant. -/
theorem c10_reachable_empty :
    removeEncryptionRow
        (removeEncryptionRow
          (addEncryptionRow
            (removeEncryptionRow (addEncryptionRow (addEncryptionRow initialEncryptionConfigs))
              "2"))
          "1")
        "3" = [] := by
  decide

end DummyDB
